import Mathlib

/-
Verification of the OBS-to-XAir bridge (src slash main module).
The mixer-control capability is modelled as a mute state per strip ref
(Int to Bool) together with a trace of the calls issued against it.
-/

namespace OBSToXAir

/-- Mute state of every mixer strip, indexed by zero-based channel ref. -/
abbrev MixerState := Int → Bool

/-- One call issued against the mixer-control capability: either a write of
the mute flag of a strip, or a read of it. -/
inductive MixerCall where
  | setMute (ref : Int) (b : Bool)
  | readMute (ref : Int)
deriving DecidableEq, Repr

/-- Writing the mute flag of strip i updates the state pointwise. -/
def setStripMute (st : MixerState) (i : Int) (b : Bool) : MixerState :=
  fun j => if j = i then b else st j

/-- Embeds Observer._mute_handler: sets strip i mute to True. -/
def mute_handler (st : MixerState) (i : Int) : MixerState × List MixerCall :=
  (setStripMute st i true, [MixerCall.setMute i true])

/-- Embeds Observer._unmute_handler: sets strip i mute to False. -/
def unmute_handler (st : MixerState) (i : Int) : MixerState × List MixerCall :=
  (setStripMute st i false, [MixerCall.setMute i false])

/-- Embeds Observer._toggle_handler: reads strip i mute, then writes its
negation. -/
def toggle_handler (st : MixerState) (i : Int) : MixerState × List MixerCall :=
  (setStripMute st i (!(st i)), [MixerCall.readMute i, MixerCall.setMute i (!(st i))])

/-- An ActionSet as fed to the dispatcher: the insertion-ordered key and
value pairs of a parsed mapping table (action kind to channel indices). -/
abbrev ActionSet := List (String × List Int)

/-- The scene mapping: insertion-ordered pairs of scene name and ActionSet. -/
abbrev SceneMapping := List (String × ActionSet)

/-- Embeds the dict.get lookup on the scene mapping: first pair whose key
matches, if any. -/
def dictGet (m : SceneMapping) (k : String) : Option ActionSet :=
  match m with
  | [] => none
  | (k₁, v) :: rest => if k₁ = k then some v else dictGet rest k

/-- Embeds the actions dict of on_current_program_scene_changed together
with the membership test: known kinds map to their handler, others to none. -/
def actions (name : String) : Option (MixerState → Int → MixerState × List MixerCall) :=
  if name = "mute" then some mute_handler
  else if name = "unmute" then some unmute_handler
  else if name = "toggle" then some toggle_handler
  else none

/-- Embeds the inner loop: for i in indices, call the handler at i - 1,
threading the mixer state and accumulating the calls. -/
def runIndices (h : MixerState → Int → MixerState × List MixerCall)
    (indices : List Int) (st : MixerState) : MixerState × List MixerCall :=
  match indices with
  | [] => (st, [])
  | i :: rest =>
      let r₁ := h st (i - 1)
      let r₂ := runIndices h rest r₁.1
      (r₂.1, r₁.2 ++ r₂.2)

/-- Embeds the outer loop: for action and indices in the found ActionSet,
if the action is a known kind run its indices, otherwise skip it. -/
def runActionSet (m : ActionSet) (st : MixerState) : MixerState × List MixerCall :=
  match m with
  | [] => (st, [])
  | (a, indices) :: rest =>
      match actions a with
      | some h =>
          let r₁ := runIndices h indices st
          let r₂ := runActionSet rest r₁.1
          (r₂.1, r₁.2 ++ r₂.2)
      | none => runActionSet rest st

/-- Embeds Observer.on_current_program_scene_changed: look the scene up in
the mapping; a missing key or a falsy (empty) ActionSet is a no-op, and
otherwise the ActionSet is executed against the mixer. -/
def on_current_program_scene_changed (mapping : SceneMapping) (scene : String)
    (st : MixerState) : MixerState × List MixerCall :=
  match dictGet mapping scene with
  | none => (st, [])
  | some m => if m.isEmpty then (st, []) else runActionSet m st

/-- Written from the words of the spec, for comparison with the source
embedding: executing one recognized (kind, index) pair converts the index
to a zero-based ref, then Mute writes true, Unmute writes false, and
Toggle writes the negation of the state read at dispatch time; an unknown
kind contributes nothing. -/
def spec_pair_exec (acc : MixerState × List MixerCall) (kind : String)
    (idx : Int) : MixerState × List MixerCall :=
  let st := acc.1
  let ref := idx - 1
  if kind = "mute" then
    (setStripMute st ref true, acc.2 ++ [MixerCall.setMute ref true])
  else if kind = "unmute" then
    (setStripMute st ref false, acc.2 ++ [MixerCall.setMute ref false])
  else if kind = "toggle" then
    (setStripMute st ref (!(st ref)),
      acc.2 ++ [MixerCall.readMute ref, MixerCall.setMute ref (!(st ref))])
  else acc

/-- Written from the words of the spec: the declared-order flattening of an
ActionSet, iterating action kinds in declared order and, within each kind,
its channel indices in declared order. -/
def spec_flatten (m : ActionSet) (st : MixerState) : MixerState × List MixerCall :=
  m.foldl (fun acc kv => kv.2.foldl (fun a i => spec_pair_exec a kv.1 i) acc)
    (st, [])

lemma actions_cases (name : String)
    (h : MixerState → Int → MixerState × List MixerCall)
    (hk : actions name = some h) :
    (name = "mute" ∧ h = mute_handler) ∨
    (name = "unmute" ∧ h = unmute_handler) ∨
    (name = "toggle" ∧ h = toggle_handler) := by
  unfold actions at hk
  split_ifs at hk with h₁ h₂ h₃
  · exact Or.inl ⟨h₁, (Option.some_inj.mp hk).symm⟩
  · exact Or.inr (Or.inl ⟨h₂, (Option.some_inj.mp hk).symm⟩)
  · exact Or.inr (Or.inr ⟨h₃, (Option.some_inj.mp hk).symm⟩)

lemma actions_none_cases (name : String) (hk : actions name = none) :
    name ≠ "mute" ∧ name ≠ "unmute" ∧ name ≠ "toggle" := by
  unfold actions at hk
  split_ifs at hk with h₁ h₂ h₃
  exact ⟨h₁, h₂, h₃⟩

lemma spec_pair_exec_unknown (acc : MixerState × List MixerCall) (kind : String)
    (idx : Int) (hk : actions kind = none) :
    spec_pair_exec acc kind idx = acc := by
  obtain ⟨h₁, h₂, h₃⟩ := actions_none_cases kind hk
  simp [spec_pair_exec, h₁, h₂, h₃]

lemma foldl_spec_pair_unknown (kind : String) (hk : actions kind = none)
    (indices : List Int) (acc : MixerState × List MixerCall) :
    indices.foldl (fun a i => spec_pair_exec a kind i) acc = acc := by
  induction indices generalizing acc with
  | nil => rfl
  | cons i rest ih =>
      rw [List.foldl_cons, spec_pair_exec_unknown acc kind i hk]
      exact ih acc

lemma spec_pair_exec_known (kind : String)
    (h : MixerState → Int → MixerState × List MixerCall)
    (hk : actions kind = some h) (st : MixerState) (c : List MixerCall)
    (idx : Int) :
    spec_pair_exec (st, c) kind idx
      = ((h st (idx - 1)).1, c ++ (h st (idx - 1)).2) := by
  rcases actions_cases kind h hk with ⟨hn, hh⟩ | ⟨hn, hh⟩ | ⟨hn, hh⟩ <;>
    subst hn <;> subst hh <;>
    simp [spec_pair_exec, mute_handler, unmute_handler, toggle_handler]

lemma foldl_spec_pair_known (kind : String)
    (h : MixerState → Int → MixerState × List MixerCall)
    (hk : actions kind = some h) (indices : List Int) (st : MixerState)
    (c : List MixerCall) :
    indices.foldl (fun a i => spec_pair_exec a kind i) (st, c)
      = ((runIndices h indices st).1, c ++ (runIndices h indices st).2) := by
  induction indices generalizing st c with
  | nil => simp [runIndices]
  | cons i rest ih =>
      rw [List.foldl_cons, spec_pair_exec_known kind h hk st c i]
      rw [ih (h st (i - 1)).1 (c ++ (h st (i - 1)).2)]
      simp [runIndices]

lemma foldl_spec_flatten (m : ActionSet) (st : MixerState) (c : List MixerCall) :
    m.foldl (fun acc kv => kv.2.foldl (fun a i => spec_pair_exec a kv.1 i) acc)
        (st, c)
      = ((runActionSet m st).1, c ++ (runActionSet m st).2) := by
  induction m generalizing st c with
  | nil => simp [runActionSet]
  | cons kv rest ih =>
      obtain ⟨a, indices⟩ := kv
      rw [List.foldl_cons]
      cases hk : actions a with
      | none =>
          rw [foldl_spec_pair_unknown a hk indices (st, c)]
          rw [ih st c]
          simp [runActionSet, hk]
      | some h =>
          rw [foldl_spec_pair_known a h hk indices st c]
          rw [ih (runIndices h indices st).1
            (c ++ (runIndices h indices st).2)]
          simp [runActionSet, hk]

lemma runActionSet_eq_spec_flatten (m : ActionSet) (st : MixerState) :
    runActionSet m st = spec_flatten m st := by
  unfold spec_flatten
  rw [foldl_spec_flatten m st []]
  simp

/-
Config resolution (load_config and its inner get_filepath). The filesystem
is modelled as an oracle fs telling which path strings are regular files,
and the TOML loader as an oracle from the opened path to either a parsed
document or the message of a decode failure.
-/

/-- The four candidate locations tried by get_filepath, in source order:
the literal path, the path under the current working directory, the path
under the directory of the script itself, and the path under the per-user
config directory. -/
def candidate_paths (cwd scriptDir home config : String) : List String :=
  [config,
    cwd ++ "/" ++ config,
    scriptDir ++ "/" ++ config,
    home ++ "/" ++ ".config" ++ "/" ++ "xair-obs" ++ "/" ++ config]

/-- The loop body of get_filepath: return the first candidate that is a
regular file, if any. -/
def first_existing (fs : String → Bool) : List String → Option String
  | [] => none
  | p :: rest => if fs p then some p else first_existing fs rest

/-- Embeds load_config.get_filepath. -/
def get_filepath (fs : String → Bool) (cwd scriptDir home config : String) :
    Option String :=
  first_existing fs (candidate_paths cwd scriptDir home config)

/-- The two failure modes of load_config: no candidate file found, or a
TOML decode failure, the latter carrying the message built from the
resolved path together with the underlying cause. -/
inductive ConfigError where
  | notFound (msg : String)
  | parseError (msg : String) (cause : String)
deriving DecidableEq, Repr

/-- Embeds load_config: resolve the path, raise FileNotFoundError when no
candidate exists, parse the resolved file, and re-raise a decode failure
with the resolved path in the message and the original error as cause. -/
def load_config {α : Type} (fs : String → Bool) (toml : String → Except String α)
    (cwd scriptDir home config : String) : Except ConfigError α :=
  match get_filepath fs cwd scriptDir home config with
  | none => Except.error (ConfigError.notFound
      ("Config file " ++ config ++ " not found"))
  | some filepath =>
      match toml filepath with
      | Except.ok doc => Except.ok doc
      | Except.error e => Except.error (ConfigError.parseError
          ("Error decoding config file " ++ filepath) e)

/-
Lifecycle: the stop event, the exit handler and the teardown of the two
with-blocks of main.
-/

/-- The mutable runtime owned by the Observer and main: the threading
stop event plus the mixer state, kept abstract here so that the exit
handler can be seen to leave everything but the event untouched. -/
structure ObserverRuntime where
  stopEvent : Bool
  mixer : MixerState

/-- Embeds Observer.on_exit_started: set the shared stop event. The
threading Event set call writes the flag and returns immediately. -/
def on_exit_started (s : ObserverRuntime) : ObserverRuntime :=
  { s with stopEvent := true }

/-- Release counters for the three client connections held by the process:
the OBS request client, the OBS event client, and the XAir mixer client. -/
structure Connections where
  reqDisconnects : Nat
  eventDisconnects : Nat
  mixerDisconnects : Nat
deriving DecidableEq, Repr

/-- Embeds Observer exit: disconnect the request client and the event
client, whatever exception information is passed in. -/
def observer_exit (c : Connections) (_exc : Option String) : Connections :=
  { c with reqDisconnects := c.reqDisconnects + 1,
           eventDisconnects := c.eventDisconnects + 1 }

/-- Embeds the exit of the xair_api.connect context manager wrapped around
main: the mixer connection is released, whatever exception is in flight. -/
def mixer_exit (c : Connections) (_exc : Option String) : Connections :=
  { c with mixerDisconnects := c.mixerDisconnects + 1 }

/-- Embeds the unwinding of the two nested with-blocks of main: the inner
Observer block exits first, then the mixer block, on normal exit (none)
and on an exception (some message) alike. -/
def main_teardown (c : Connections) (exc : Option String) : Connections :=
  mixer_exit (observer_exit c exc) exc

/-- Fresh connection bookkeeping: nothing released yet. -/
def freshConnections : Connections := ⟨0, 0, 0⟩

/-- Claim C1: a (kind, index) pair executed by the scene-change dispatcher
with declared ChannelIndex i addresses the mixer at ref i - 1, and performs
Mute as a write of true, Unmute as a write of false, and Toggle as a write
of the negation of the mute state read at dispatch time. -/
theorem C1_pair_dispatch_semantics (scene : String) (st : MixerState) (i : Int) :
    on_current_program_scene_changed [(scene, [("mute", [i])])] scene st
      = (setStripMute st (i - 1) true, [MixerCall.setMute (i - 1) true])
    ∧ on_current_program_scene_changed [(scene, [("unmute", [i])])] scene st
      = (setStripMute st (i - 1) false, [MixerCall.setMute (i - 1) false])
    ∧ on_current_program_scene_changed [(scene, [("toggle", [i])])] scene st
      = (setStripMute st (i - 1) (!(st (i - 1))),
          [MixerCall.readMute (i - 1), MixerCall.setMute (i - 1) (!(st (i - 1)))]) := by
  refine ⟨?_, ?_, ?_⟩ <;>
    simp [on_current_program_scene_changed, dictGet, runActionSet, runIndices,
      actions, mute_handler, unmute_handler, toggle_handler]

/-- Claim C2: for a mapped scene the dispatcher produces exactly the
declared-order flattening of the found ActionSet, action kinds iterated in
declared order and, within each, indices in declared order, unknown kinds
contributing no mixer call; in particular the ActionSet mapping mute to
the indices 1 and 3 writes true at refs 0 and 2 and touches no other
channel. -/
theorem C2_dispatch_is_declared_order_flattening (mapping : SceneMapping)
    (scene : String) (st : MixerState) (m : ActionSet)
    (hm : dictGet mapping scene = some m) :
    on_current_program_scene_changed mapping scene st = spec_flatten m st
    ∧ (on_current_program_scene_changed [(scene, [("mute", [1, 3])])] scene st).2
        = [MixerCall.setMute 0 true, MixerCall.setMute 2 true]
    ∧ ∀ j : Int, j ≠ 0 → j ≠ 2 →
        (on_current_program_scene_changed [(scene, [("mute", [1, 3])])] scene st).1 j
          = st j := by
  refine ⟨?_, ?_, ?_⟩
  · unfold on_current_program_scene_changed
    rw [hm]
    cases m with
    | nil => simp [spec_flatten]
    | cons kv rest => simp [runActionSet_eq_spec_flatten]
  · simp [on_current_program_scene_changed, dictGet, runActionSet, runIndices,
      actions, mute_handler]
  · intro j h0 h2
    simp [on_current_program_scene_changed, dictGet, runActionSet, runIndices,
      actions, mute_handler, setStripMute, h0, h2]

theorem C2_dispatch_is_declared_order_flattening_witness :
    (on_current_program_scene_changed [("live", [("mute", [1, 3])])] "live"
        (fun _ => false)).2
      = [MixerCall.setMute 0 true, MixerCall.setMute 2 true]
    ∧ (on_current_program_scene_changed [("live", [("mute", [1, 3])])] "live"
        (fun _ => false)).1 5 = false := by
  have h := C2_dispatch_is_declared_order_flattening
    [("live", [("mute", [1, 3])])] "live" (fun _ => false)
    [("mute", [1, 3])] (by decide)
  exact ⟨h.2.1, h.2.2 5 (by decide) (by decide)⟩

/-- Claim C3: a scene name absent from the mapping is a no-op: the
dispatcher returns with the mixer state untouched and an empty call trace,
raising no error. -/
theorem C3_unmapped_scene_is_noop (mapping : SceneMapping) (scene : String)
    (st : MixerState) (h : dictGet mapping scene = none) :
    on_current_program_scene_changed mapping scene st = (st, []) := by
  unfold on_current_program_scene_changed
  rw [h]

theorem C3_unmapped_scene_is_noop_witness :
    on_current_program_scene_changed [("live", [("mute", [1])])] "other"
        (fun _ => false)
      = (fun _ => false, []) :=
  C3_unmapped_scene_is_noop [("live", [("mute", [1])])] "other"
    (fun _ => false) (by decide)

/-- Claim C4: when the same ref appears under several kinds of one
ActionSet, the last action in declared order wins: mute then unmute on
index 1 leaves ref 0 unmuted with trace write true then write false, and
the reversed declaration leaves ref 0 muted. -/
theorem C4_last_action_in_declared_order_wins (scene : String) (st : MixerState) :
    (on_current_program_scene_changed
        [(scene, [("mute", [1]), ("unmute", [1])])] scene st).1 0 = false
    ∧ (on_current_program_scene_changed
        [(scene, [("mute", [1]), ("unmute", [1])])] scene st).2
      = [MixerCall.setMute 0 true, MixerCall.setMute 0 false]
    ∧ (on_current_program_scene_changed
        [(scene, [("unmute", [1]), ("mute", [1])])] scene st).1 0 = true
    ∧ (on_current_program_scene_changed
        [(scene, [("unmute", [1]), ("mute", [1])])] scene st).2
      = [MixerCall.setMute 0 false, MixerCall.setMute 0 true] := by
  refine ⟨?_, ?_, ?_, ?_⟩ <;>
    simp [on_current_program_scene_changed, dictGet, runActionSet, runIndices,
      actions, mute_handler, unmute_handler, setStripMute]

/-- Claim C9: a declared ChannelIndex of 0 or negative is not validated,
rejected or skipped: it flows through the same arithmetic, so the mixer is
addressed at ref i - 1, for instance ref -1 for declared index 0. -/
theorem C9_nonpositive_index_passes_through (scene : String) (st : MixerState)
    (i : Int) (_hi : i ≤ 0) :
    on_current_program_scene_changed [(scene, [("mute", [i])])] scene st
      = (setStripMute st (i - 1) true, [MixerCall.setMute (i - 1) true]) := by
  simp [on_current_program_scene_changed, dictGet, runActionSet, runIndices,
    actions, mute_handler]

theorem C9_nonpositive_index_passes_through_witness :
    (on_current_program_scene_changed [("live", [("mute", [0])])] "live"
        (fun _ => false)).2
      = [MixerCall.setMute (-1) true] := by
  have h := C9_nonpositive_index_passes_through "live" (fun _ => false) 0
    (by decide)
  rw [h]
  decide

/-- Claim C10: a scene mapped to an empty ActionSet behaves exactly like an
unmapped scene, because the dict.get result is tested for truthiness and
an empty table is falsy: the dispatcher returns with zero effect. -/
theorem C10_empty_action_set_is_noop (mapping : SceneMapping) (scene : String)
    (st : MixerState) (h : dictGet mapping scene = some []) :
    on_current_program_scene_changed mapping scene st = (st, []) := by
  unfold on_current_program_scene_changed
  rw [h]
  rfl

theorem C10_empty_action_set_is_noop_witness :
    on_current_program_scene_changed [("idle", [])] "idle" (fun _ => false)
      = (fun _ => false, []) :=
  C10_empty_action_set_is_noop [("idle", [])] "idle" (fun _ => false) (by decide)

lemma first_existing_eq_find (fs : String → Bool) (l : List String) :
    first_existing fs l = l.find? fs := by
  induction l with
  | nil => rfl
  | cons p rest ih =>
      by_cases hp : fs p = true
      · simp [first_existing, List.find?, hp]
      · simp only [Bool.not_eq_true] at hp
        simp [first_existing, List.find?, hp, ih]

/-- Claim C5: path resolution tries exactly the four candidates of
candidate_paths, in that fixed order, and returns the first that is a
regular file, so when only the third exists that one is returned; when
none exists, load_config fails with the not-found error. -/
theorem C5_resolution_order_and_not_found {α : Type} (fs : String → Bool)
    (toml : String → Except String α) (cwd scriptDir home config : String) :
    get_filepath fs cwd scriptDir home config
      = (candidate_paths cwd scriptDir home config).find? fs
    ∧ (fs config = false → fs (cwd ++ "/" ++ config) = false →
        fs (scriptDir ++ "/" ++ config) = true →
        get_filepath fs cwd scriptDir home config
          = some (scriptDir ++ "/" ++ config))
    ∧ ((∀ p ∈ candidate_paths cwd scriptDir home config, fs p = false) →
        load_config fs toml cwd scriptDir home config
          = Except.error (ConfigError.notFound
              ("Config file " ++ config ++ " not found"))) := by
  refine ⟨first_existing_eq_find fs _, ?_, ?_⟩
  · intro h₁ h₂ h₃
    simp [get_filepath, candidate_paths, first_existing, h₁, h₂, h₃]
  · intro hall
    have h₁ := hall config (by simp [candidate_paths])
    have h₂ := hall (cwd ++ "/" ++ config) (by simp [candidate_paths])
    have h₃ := hall (scriptDir ++ "/" ++ config) (by simp [candidate_paths])
    have h₄ := hall (home ++ "/" ++ ".config" ++ "/" ++ "xair-obs" ++ "/" ++ config)
      (by simp [candidate_paths])
    simp [load_config, get_filepath, candidate_paths, first_existing,
      h₁, h₂, h₃, h₄]

theorem C5_resolution_order_and_not_found_witness :
    get_filepath (fun s => s == "sd/config.toml") "cw" "sd" "hm" "config.toml"
      = some "sd/config.toml"
    ∧ load_config (fun _ => false) (fun _ => Except.ok (0 : Nat))
        "cw" "sd" "hm" "config.toml"
      = Except.error (ConfigError.notFound
          ("Config file " ++ "config.toml" ++ " not found")) := by
  constructor
  · have h := (C5_resolution_order_and_not_found
      (fun s => s == "sd/config.toml") (fun _ => Except.ok (0 : Nat))
      "cw" "sd" "hm" "config.toml").2.1 (by decide) (by decide) (by decide)
    exact h
  · exact (C5_resolution_order_and_not_found (fun _ => false)
      (fun _ => Except.ok (0 : Nat)) "cw" "sd" "hm" "config.toml").2.2
      (fun p _ => rfl)

/-- Claim C6: when the resolved candidate exists but its content fails to
parse, load_config fails with the decode error whose message names the
resolved path and whose cause is the underlying parse failure; neither
success nor a fallthrough to a later candidate can occur. -/
theorem C6_parse_failure_wraps_path_and_cause {α : Type} (fs : String → Bool)
    (toml : String → Except String α) (cwd scriptDir home config fp e : String)
    (hfp : get_filepath fs cwd scriptDir home config = some fp)
    (he : toml fp = Except.error e) :
    load_config fs toml cwd scriptDir home config
      = Except.error (ConfigError.parseError
          ("Error decoding config file " ++ fp) e) := by
  simp [load_config, hfp, he]

theorem C6_parse_failure_wraps_path_and_cause_witness :
    load_config (fun s => s == "config.toml")
        (fun _ => (Except.error "invalid toml" : Except String Nat))
        "cw" "sd" "hm" "config.toml"
      = Except.error (ConfigError.parseError
          ("Error decoding config file " ++ "config.toml") "invalid toml") :=
  C6_parse_failure_wraps_path_and_cause (fun s => s == "config.toml")
    (fun _ => (Except.error "invalid toml" : Except String Nat))
    "cw" "sd" "hm" "config.toml" "config.toml" "invalid toml"
    (by decide) rfl

/-- Claim C7: the exit handler sets the shared stop event, leaves the rest
of the runtime untouched, and is idempotent: a second invocation changes
nothing. Being a total function of the state, it returns without blocking. -/
theorem C7_exit_handler_signals_and_is_idempotent (s : ObserverRuntime) :
    (on_exit_started s).stopEvent = true
    ∧ (on_exit_started s).mixer = s.mixer
    ∧ on_exit_started (on_exit_started s) = on_exit_started s := by
  exact ⟨rfl, rfl, rfl⟩

/-- Claim C8: unwinding the with-blocks of main releases every connection
handle exactly once, on a normal exit and on an exceptional one alike:
each disconnect counter rises by exactly one, and from a fresh state each
ends at one. -/
theorem C8_teardown_releases_each_handle_once (exc : Option String)
    (c : Connections) :
    main_teardown c exc
      = ⟨c.reqDisconnects + 1, c.eventDisconnects + 1, c.mixerDisconnects + 1⟩
    ∧ main_teardown freshConnections exc = ⟨1, 1, 1⟩ := by
  exact ⟨rfl, rfl⟩

end OBSToXAir
